import Mathlib

/-!
Shallow embedding of the apigee-key-manager credential lifecycle core
(`src/app/main.py` and `src/app/secret_manager.py`).

Modelling conventions:
* `src/app/main.py` defines the classes `SecretManager` and `ApigeeKeyManager`
  twice; the module-level instances `secret_manager` (line 174) and
  `key_manager` (line 275) are constructed from the *first* definitions, and
  every route closes over those instances, so the first class bodies
  (lines 62-156 and 180-272) are the live code embedded here.  The second
  definitions (lines 314-421) are never instantiated.
* Google Secret Manager is modelled as an association list from secret id to
  the list of payload versions, oldest first; `versions/latest` is the last
  element.  `create_secret` raises `AlreadyExists` when the id is present;
  `add_secret_version` raises `NotFound` when it is absent;
  `access_secret_version(latest)` raises `NotFound` when the id is absent or
  has no versions.
* Timestamps are integers (days); `timedelta(days=r)` is addition by `r`.
  The several `datetime.now()` calls inside one operation are modelled as the
  single instant `now` passed to that operation.
* `uuid.uuid4()`-based credential generation is nondeterministic, so the
  freshly generated pair is a parameter of each operation.
* Python exceptions become `Except` results; an operation returns its state
  paired with the result, and when it raises, the state it returns is the
  state at the moment of the raise (every raise in this code happens before
  any store write of the same operation).
-/

structure Credentials where
  key : String
  secret : String
deriving DecidableEq, Repr

structure Metadata where
  app_name : String
  created_at : Int
  last_rotated : Int
  next_rotation : Int
  rotation_period_days : Int
deriving DecidableEq, Repr

structure SecretData where
  credentials : Credentials
  metadata : Metadata
deriving DecidableEq, Repr

/-- The versions of one secret container, oldest first. -/
abbrev Container := List SecretData

/-- The Google Secret Manager backend: secret id ↦ container. -/
abbrev Store := List (String × Container)

def Store.lookup : Store → String → Option Container
  | [], _ => none
  | (k, v) :: rest, key => if k = key then some v else Store.lookup rest key

/-- Replace the container bound to `key` (first occurrence), or append it. -/
def Store.set : Store → String → Container → Store
  | [], key, c => [(key, c)]
  | (k, v) :: rest, key, c =>
      if k = key then (key, c) :: rest else (k, v) :: Store.set rest key c

/-- How many containers in the backend carry this secret id. -/
def Store.countKey : Store → String → Nat
  | [], _ => 0
  | (k, _) :: rest, key => (if k = key then 1 else 0) + Store.countKey rest key

/-- Raw errors of the Secret Manager client (`google.api_core.exceptions`). -/
inductive GErr where
  | notFound
  | alreadyExists
deriving DecidableEq, Repr

def GErr.message : GErr → String
  | .notFound => "NotFound"
  | .alreadyExists => "AlreadyExists"

/-- Errors surfaced by the application layer: `HTTPException(status, detail)`,
pydantic validation failure on request parsing, and `ValueError`. -/
inductive Err where
  | http (code : Nat) (detail : String)
  | validation (msg : String)
  | valueError (msg : String)
deriving DecidableEq, Repr

def Err.message : Err → String
  | .http _ d => d
  | .validation m => m
  | .valueError m => m

/-- `secret_id = f"apigee-key-{app_name}"`. -/
def secretId (app_name : String) : String := "apigee-key-" ++ app_name

/-- `client.create_secret`: fails with `AlreadyExists` when the id is taken,
otherwise registers an empty container. -/
def clientCreateSecret (store : Store) (sid : String) : Except GErr Store :=
  match store.lookup sid with
  | some _ => .error .alreadyExists
  | none => .ok (store.set sid [])

/-- `client.add_secret_version`: appends a payload to an existing container and
returns the new store with the new version ordinal. -/
def addSecretVersion (store : Store) (sid : String) (payload : SecretData) :
    Except GErr (Store × Nat) :=
  match store.lookup sid with
  | some vs => .ok (store.set sid (vs ++ [payload]), vs.length + 1)
  | none => .error .notFound

/-- `client.access_secret_version(versions/latest)`. -/
def accessLatestVersion (store : Store) (sid : String) : Except GErr SecretData :=
  match store.lookup sid with
  | some vs =>
      match vs.getLast? with
      | some p => .ok p
      | none => .error .notFound
  | none => .error .notFound

/-- `client.get_secret`: existence check on the container itself. -/
def clientGetSecretMeta (store : Store) (sid : String) : Except GErr Unit :=
  match store.lookup sid with
  | some _ => .ok ()
  | none => .error .notFound

/-- The cached entity (`AppSecret` pydantic model of `src/app/main.py`). -/
structure AppSecret where
  app_name : String
  consumer_key : String
  consumer_secret : String
  last_rotated : Int
  next_rotation : Int
deriving DecidableEq, Repr

/-- The environment-derived configuration of `src/app/main.py` (`Config`).
`DEV_MODE = false` is the durable (Secret-Manager-backed) deployment, in
which the module-level `secret_manager` instance exists. -/
structure Config where
  ROTATION_PERIOD_DAYS : Int
  DEV_MODE : Bool

/-- Whole-system state: the durable backend plus `key_manager.apps_cache`. -/
structure SysState where
  store : Store
  cache : List (String × AppSecret)
deriving Repr

def cacheGet : List (String × AppSecret) → String → Option AppSecret
  | [], _ => none
  | (k, v) :: rest, key => if k = key then some v else cacheGet rest key

def cacheSet : List (String × AppSecret) → String → AppSecret →
    List (String × AppSecret)
  | [], key, s => [(key, s)]
  | (k, v) :: rest, key, s =>
      if k = key then (key, s) :: rest else (k, v) :: cacheSet rest key s

namespace SecretManager

/-- `SecretManager.create_secret` (src/app/main.py lines 70-121): builds the
payload, tries `client.create_secret` swallowing `AlreadyExists` (the only
error the client raises there), then appends a new version. -/
def create_secret (store : Store) (app_name : String) (credentials : Credentials)
    (rotation_period_days now : Int) : Except GErr (Store × Nat) :=
  let secret_data : SecretData :=
    { credentials := credentials
      metadata :=
        { app_name := app_name
          created_at := now
          last_rotated := now
          next_rotation := now + rotation_period_days
          rotation_period_days := rotation_period_days } }
  let ensured : Store :=
    match clientCreateSecret store (secretId app_name) with
    | .ok s => s
    | .error _ => store
  addSecretVersion ensured (secretId app_name) secret_data

/-- `SecretManager.get_secret` (src/app/main.py lines 123-135): latest version,
with `NotFound` mapped to `HTTPException(404, "Secret not found for app: …")`. -/
def get_secret (store : Store) (app_name : String) : Except Err SecretData :=
  match accessLatestVersion store (secretId app_name) with
  | .ok d => .ok d
  | .error _ => .error (.http 404 ("Secret not found for app: " ++ app_name))

end SecretManager

namespace ApigeeKeyManager

/-- `ApigeeKeyManager.create_app` (src/app/main.py lines 184-216): in durable
mode stores the payload first; caches and returns the new `AppSecret`; the
catch-all turns any store failure into `HTTPException(500, …)`. -/
def create_app (cfg : Config) (st : SysState) (app_name : String)
    (rotation_period_days now : Int) (credentials : Credentials) :
    SysState × Except Err AppSecret :=
  let app_secret : AppSecret :=
    { app_name := app_name
      consumer_key := credentials.key
      consumer_secret := credentials.secret
      last_rotated := now
      next_rotation := now + rotation_period_days }
  if cfg.DEV_MODE then
    ({ st with cache := cacheSet st.cache app_name app_secret }, .ok app_secret)
  else
    match SecretManager.create_secret st.store app_name credentials
        rotation_period_days now with
    | .error e => (st, .error (.http 500 e.message))
    | .ok (store', _) =>
        ({ store := store', cache := cacheSet st.cache app_name app_secret },
         .ok app_secret)

/-- `ApigeeKeyManager.rotate_secret` (src/app/main.py lines 218-254): in
durable mode reads the existing payload (recovering the stored period) and
writes a new version with that period; the returned/cached `AppSecret`,
however, is built with `next_rotation = now + Config.ROTATION_PERIOD_DAYS`
(line 245, the global default) in both modes.  The catch-all re-raises any
failure — including the 404 from `get_secret` — as `HTTPException(500, str(e))`. -/
def rotate_secret (cfg : Config) (st : SysState) (app_name : String)
    (now : Int) (new_credentials : Credentials) :
    SysState × Except Err AppSecret :=
  let app_secret : AppSecret :=
    { app_name := app_name
      consumer_key := new_credentials.key
      consumer_secret := new_credentials.secret
      last_rotated := now
      next_rotation := now + cfg.ROTATION_PERIOD_DAYS }
  if cfg.DEV_MODE then
    ({ st with cache := cacheSet st.cache app_name app_secret }, .ok app_secret)
  else
    match SecretManager.get_secret st.store app_name with
    | .error e => (st, .error (.http 500 e.message))
    | .ok existing_secret =>
        match SecretManager.create_secret st.store app_name new_credentials
            existing_secret.metadata.rotation_period_days now with
        | .error e => (st, .error (.http 500 e.message))
        | .ok (store', _) =>
            ({ store := store', cache := cacheSet st.cache app_name app_secret },
             .ok app_secret)

/-- `ApigeeKeyManager.get_app_status` (src/app/main.py lines 256-272): durable
mode reads the latest payload (any failure becomes a 404); local mode returns
the cached entry or lazily creates the app with the default period. -/
def get_app_status (cfg : Config) (st : SysState) (app_name : String)
    (now : Int) (credentials : Credentials) : SysState × Except Err AppSecret :=
  if cfg.DEV_MODE then
    match cacheGet st.cache app_name with
    | some s => (st, .ok s)
    | none =>
        match create_app cfg st app_name cfg.ROTATION_PERIOD_DAYS now credentials with
        | (st', .ok s) => (st', .ok s)
        | (_, .error _) =>
            (st, .error (.http 404
              ("App " ++ app_name ++ " not found or error accessing secrets")))
  else
    match SecretManager.get_secret st.store app_name with
    | .ok d =>
        (st, .ok
          { app_name := app_name
            consumer_key := d.credentials.key
            consumer_secret := d.credentials.secret
            last_rotated := d.metadata.last_rotated
            next_rotation := d.metadata.next_rotation })
    | .error _ =>
        (st, .error (.http 404
          ("App " ++ app_name ++ " not found or error accessing secrets")))

end ApigeeKeyManager

/-- `RotationSchedule.validate_period` (src/app/main.py lines 54-60). -/
def RotationSchedule.validate_period (v : Int) : Except String Int :=
  if v < 1 then .error "Rotation period must be at least 1 day"
  else if v > 365 then .error "Rotation period cannot exceed 365 days"
  else .ok v

/-- Route `POST /apps/{app_name}/schedule` (src/app/main.py lines 298-312):
pydantic validates the period while parsing the request body, before the
handler body (and hence before any store interaction); the handler then calls
`key_manager.create_app`. -/
def set_rotation_schedule (cfg : Config) (st : SysState) (app_name : String)
    (rotation_period_days now : Int) (credentials : Credentials) :
    SysState × Except Err AppSecret :=
  match RotationSchedule.validate_period rotation_period_days with
  | .error m => (st, .error (.validation m))
  | .ok p => ApigeeKeyManager.create_app cfg st app_name p now credentials

/-- The three record shapes returned by `GET /verify/{app_name}`. -/
inductive VerifyResponse where
  | devMode (mode message : String)
  | found (app_name : String) (last_rotated next_rotation : Int)
      (has_credentials : Bool)
  | absent (error : String)
deriving DecidableEq, Repr

/-- The `exists` key of the JSON record, when the record has one. -/
def VerifyResponse.existsField : VerifyResponse → Option Bool
  | .devMode _ _ => none
  | .found _ _ _ _ => some true
  | .absent _ => some false

/-- Route `GET /verify/{app_name}` (src/app/main.py lines 449-468).  The stored
payload always carries a (non-empty, hence truthy) credentials object, so
`has_credentials` is `true` on the success path. -/
def verify_app_secret (cfg : Config) (st : SysState) (app_name : String) :
    SysState × VerifyResponse :=
  if cfg.DEV_MODE then
    (st, .devMode "development" "Verification not available in dev mode")
  else
    match SecretManager.get_secret st.store app_name with
    | .ok d =>
        (st, .found app_name d.metadata.last_rotated d.metadata.next_rotation true)
    | .error e => (st, .absent e.message)

namespace SecretManagerClient

/-- `SecretManagerClient.store_api_key` (src/app/secret_manager.py lines
24-78): stamps a fresh payload (`created_at = now`), provisions the container
when the existence probe raises `NotFound`, appends the version, and returns
the payload it stored.  (The source payload omits the `app_name` key; it is
carried here only to reuse one payload shape and is irrelevant to every
property below.) -/
def store_api_key (store : Store) (app_name : String) (credentials : Credentials)
    (rotation_period_days now : Int) : Except Err (Store × SecretData) :=
  let secret_data : SecretData :=
    { credentials := credentials
      metadata :=
        { app_name := app_name
          created_at := now
          last_rotated := now
          next_rotation := now + rotation_period_days
          rotation_period_days := rotation_period_days } }
  let ensured : Store :=
    match clientGetSecretMeta store (secretId app_name) with
    | .ok _ => store
    | .error _ => store.set (secretId app_name) []
  match addSecretVersion ensured (secretId app_name) secret_data with
  | .ok (store', _) => .ok (store', secret_data)
  | .error e => .error (.http 500 e.message)

/-- `SecretManagerClient.get_api_key` (src/app/secret_manager.py lines 80-94):
`NotFound` becomes `None`. -/
def get_api_key (store : Store) (app_name : String) : Option SecretData :=
  match accessLatestVersion store (secretId app_name) with
  | .ok d => some d
  | .error _ => none

/-- `SecretManagerClient.update_api_key` (src/app/secret_manager.py lines
120-145): reads the current payload, recovers the stored period, builds
`updated_data` with the original `created_at` preserved — and then stores
`store_api_key`'s freshly stamped payload instead, exactly as the source
does (`updated_data` is never written). -/
def update_api_key (store : Store) (app_name : String)
    (new_credentials : Credentials) (now : Int) :
    Except Err (Store × SecretData) :=
  match get_api_key store app_name with
  | none => .error (.valueError ("No existing secret found for app: " ++ app_name))
  | some current_data =>
      let rotation_period := current_data.metadata.rotation_period_days
      let updated_data : SecretData :=
        { credentials := new_credentials
          metadata :=
            { app_name := current_data.metadata.app_name
              created_at := current_data.metadata.created_at
              last_rotated := now
              next_rotation := now + rotation_period
              rotation_period_days := rotation_period } }
      store_api_key store app_name new_credentials rotation_period now

end SecretManagerClient

/-! ## Shared concrete fixtures used by witnesses and counterexamples -/

/-- Durable-mode configuration with the default `ROTATION_PERIOD_DAYS = 30`. -/
def cfgProd : Config := { ROTATION_PERIOD_DAYS := 30, DEV_MODE := false }

/-- Local (DEV) configuration with the default `ROTATION_PERIOD_DAYS = 30`. -/
def cfgDev : Config := { ROTATION_PERIOD_DAYS := 30, DEV_MODE := true }

/-- Fresh deployment: empty backend and empty cache. -/
def emptyState : SysState := { store := [], cache := [] }

def creds1 : Credentials := { key := "key-1", secret := "secret-1" }

def creds2 : Credentials := { key := "key-2", secret := "secret-2" }

/-- The payload `SecretManager.create_secret` serializes for a write at
instant `now` with the given period. -/
def mkPayload (app_name : String) (cr : Credentials) (rotation_period_days now : Int) :
    SecretData :=
  { credentials := cr
    metadata :=
      { app_name := app_name
        created_at := now
        last_rotated := now
        next_rotation := now + rotation_period_days
        rotation_period_days := rotation_period_days } }

/-- The `AppSecret` that DEV-mode lazy creation and DEV-mode rotation build:
`next_rotation` comes from the global default period. -/
def lazyAppSecret (cfg : Config) (app_name : String) (now : Int) (cr : Credentials) :
    AppSecret :=
  { app_name := app_name
    consumer_key := cr.key
    consumer_secret := cr.secret
    last_rotated := now
    next_rotation := now + cfg.ROTATION_PERIOD_DAYS }

/-- The HTTP status a surfaced `Err` carries (pydantic validation errors are
surfaced by FastAPI as 422, an uncaught `ValueError` as 500). -/
def Err.statusCode : Err → Nat
  | .http c _ => c
  | .validation _ => 422
  | .valueError _ => 500

/-- State after `create("demo", 60)` at instant 0 on a fresh durable deployment. -/
def demoSt1 : SysState := (set_rotation_schedule cfgProd emptyState "demo" 60 0 creds1).1

/-- Result of `rotate("demo")` at instant 100 on `demoSt1`. -/
def demoRotate : SysState × Except Err AppSecret :=
  ApigeeKeyManager.rotate_secret cfgProd demoSt1 "demo" 100 creds2

/-- A backend holding one version for app `"u"`, written at instant 0 with
period 30 (what `store_api_key [] "u" creds1 30 0` produces). -/
def uStore : Store := [(secretId "u", [mkPayload "u" creds1 30 0])]

/-! ## Lemmas about the store and cache maps -/

theorem Store.lookup_set_self (s : Store) (k : String) (c : Container) :
    (Store.set s k c).lookup k = some c := by
  induction s with
  | nil => simp [Store.set, Store.lookup]
  | cons hd tl ih =>
      obtain ⟨k', v⟩ := hd
      by_cases h : k' = k
      · simp [Store.set, h, Store.lookup]
      · simp [Store.set, h, Store.lookup, ih]

theorem Store.set_set (s : Store) (k : String) (c₁ c₂ : Container) :
    (Store.set s k c₁).set k c₂ = Store.set s k c₂ := by
  induction s with
  | nil => simp [Store.set]
  | cons hd tl ih =>
      obtain ⟨k', v⟩ := hd
      by_cases h : k' = k
      · simp [Store.set, h]
      · simp [Store.set, h, ih]

theorem Store.countKey_eq_zero_of_lookup_none (s : Store) (k : String)
    (h : s.lookup k = none) : s.countKey k = 0 := by
  induction s with
  | nil => simp [Store.countKey]
  | cons hd tl ih =>
      obtain ⟨k', v⟩ := hd
      by_cases hk : k' = k
      · simp [Store.lookup, hk] at h
      · simp [Store.lookup, hk] at h
        simp [Store.countKey, hk, ih h]

theorem Store.countKey_set_of_lookup_none (s : Store) (k : String) (c : Container)
    (h : s.lookup k = none) : (Store.set s k c).countKey k = 1 := by
  induction s with
  | nil => simp [Store.set, Store.countKey]
  | cons hd tl ih =>
      obtain ⟨k', v⟩ := hd
      by_cases hk : k' = k
      · simp [Store.lookup, hk] at h
      · simp [Store.lookup, hk] at h
        simp [Store.set, hk, Store.countKey, ih h]

theorem Store.countKey_set_of_lookup_some (s : Store) (k : String)
    (v₀ c : Container) (h : s.lookup k = some v₀) :
    (Store.set s k c).countKey k = s.countKey k := by
  induction s with
  | nil => simp [Store.lookup] at h
  | cons hd tl ih =>
      obtain ⟨k', v⟩ := hd
      by_cases hk : k' = k
      · simp [Store.set, hk, Store.countKey]
      · simp [Store.lookup, hk] at h
        simp [Store.set, hk, Store.countKey, ih h]

theorem cacheGet_cacheSet_self (c : List (String × AppSecret)) (k : String)
    (s : AppSecret) : cacheGet (cacheSet c k s) k = some s := by
  induction c with
  | nil => simp [cacheSet, cacheGet]
  | cons hd tl ih =>
      obtain ⟨k', v⟩ := hd
      by_cases h : k' = k
      · simp [cacheSet, h, cacheGet]
      · simp [cacheSet, h, cacheGet, ih]

/-! ## Unfolding lemmas for the embedded operations -/

theorem RotationSchedule.validate_period_ok (v : Int) (h1 : 1 ≤ v) (h2 : v ≤ 365) :
    RotationSchedule.validate_period v = .ok v := by
  unfold RotationSchedule.validate_period
  rw [if_neg (by omega), if_neg (by omega)]

/-- `create_secret` always succeeds: `AlreadyExists` is swallowed, and the new
payload is appended to whatever versions the container already had. -/
theorem SecretManager.create_secret_eq (store : Store) (app_name : String)
    (cr : Credentials) (period now : Int) :
    SecretManager.create_secret store app_name cr period now =
      .ok (store.set (secretId app_name)
            (((store.lookup (secretId app_name)).getD []) ++ [mkPayload app_name cr period now]),
          ((store.lookup (secretId app_name)).getD []).length + 1) := by
  cases h : store.lookup (secretId app_name) with
  | none =>
      simp [SecretManager.create_secret, clientCreateSecret, addSecretVersion, h,
        Store.lookup_set_self, Store.set_set, mkPayload]
  | some vs =>
      simp [SecretManager.create_secret, clientCreateSecret, addSecretVersion, h,
        mkPayload]

/-- Reading `versions/latest` right after an append returns the appended payload. -/
theorem SecretManager.get_secret_set (store : Store) (app_name : String)
    (vs : Container) (p : SecretData) :
    SecretManager.get_secret (store.set (secretId app_name) (vs ++ [p])) app_name =
      .ok p := by
  simp [SecretManager.get_secret, accessLatestVersion, Store.lookup_set_self,
    List.getLast?_concat]

/-- Durable-mode `create_app` unfolded: one version appended, cache updated,
and the returned `AppSecret` built from the same instant and period. -/
theorem ApigeeKeyManager.create_app_eq (cfg : Config) (st : SysState)
    (app_name : String) (period now : Int) (cr : Credentials)
    (hDur : cfg.DEV_MODE = false) :
    ApigeeKeyManager.create_app cfg st app_name period now cr =
      ({ store := st.store.set (secretId app_name)
            (((st.store.lookup (secretId app_name)).getD []) ++ [mkPayload app_name cr period now])
         cache := cacheSet st.cache app_name
            ⟨app_name, cr.key, cr.secret, now, now + period⟩ },
       .ok ⟨app_name, cr.key, cr.secret, now, now + period⟩) := by
  simp [ApigeeKeyManager.create_app, hDur, SecretManager.create_secret_eq]

/-- DEV-mode `create_app` unfolded: no store interaction, cache updated. -/
theorem ApigeeKeyManager.create_app_dev_eq (cfg : Config) (st : SysState)
    (app_name : String) (period now : Int) (cr : Credentials)
    (hDev : cfg.DEV_MODE = true) :
    ApigeeKeyManager.create_app cfg st app_name period now cr =
      ({ store := st.store
         cache := cacheSet st.cache app_name
            ⟨app_name, cr.key, cr.secret, now, now + period⟩ },
       .ok ⟨app_name, cr.key, cr.secret, now, now + period⟩) := by
  simp [ApigeeKeyManager.create_app, hDev]

/-- Durable-mode `rotate_secret` on an existing app, unfolded: the written
version carries the period read from the existing payload, while the returned
and cached `AppSecret` is built from `Config.ROTATION_PERIOD_DAYS`. -/
theorem ApigeeKeyManager.rotate_secret_eq (cfg : Config) (st : SysState)
    (app_name : String) (now : Int) (cr : Credentials) (existing : SecretData)
    (hDur : cfg.DEV_MODE = false)
    (hex : SecretManager.get_secret st.store app_name = .ok existing) :
    ApigeeKeyManager.rotate_secret cfg st app_name now cr =
      ({ store := st.store.set (secretId app_name)
            (((st.store.lookup (secretId app_name)).getD []) ++
              [mkPayload app_name cr existing.metadata.rotation_period_days now])
         cache := cacheSet st.cache app_name
            ⟨app_name, cr.key, cr.secret, now, now + cfg.ROTATION_PERIOD_DAYS⟩ },
       .ok ⟨app_name, cr.key, cr.secret, now, now + cfg.ROTATION_PERIOD_DAYS⟩) := by
  simp [ApigeeKeyManager.rotate_secret, hDur, hex, SecretManager.create_secret_eq]

/-- Durable-mode `get_app_status` on an existing app, unfolded. -/
theorem ApigeeKeyManager.get_app_status_eq (cfg : Config) (st : SysState)
    (app_name : String) (now : Int) (cr : Credentials) (d : SecretData)
    (hDur : cfg.DEV_MODE = false)
    (hex : SecretManager.get_secret st.store app_name = .ok d) :
    ApigeeKeyManager.get_app_status cfg st app_name now cr =
      (st, .ok ⟨app_name, d.credentials.key, d.credentials.secret,
                d.metadata.last_rotated, d.metadata.next_rotation⟩) := by
  simp [ApigeeKeyManager.get_app_status, hDur, hex]

/-- The schedule route with a valid period reduces to `create_app`. -/
theorem set_rotation_schedule_valid (cfg : Config) (st : SysState)
    (app_name : String) (period now : Int) (cr : Credentials)
    (h1 : 1 ≤ period) (h2 : period ≤ 365) :
    set_rotation_schedule cfg st app_name period now cr =
      ApigeeKeyManager.create_app cfg st app_name period now cr := by
  simp [set_rotation_schedule, RotationSchedule.validate_period_ok period h1 h2]

/-! ## Claim theorems -/

/-- Claim C6: `create(app, 0)` and `create(app, 400)` fail with a
`ValidationError` before any state change (the returned state is the input
state untouched), while `create(app, 1)` and `create(app, 365)` succeed with
the expected credential — in either deployment mode. -/
theorem C6_validation_boundary (cfg : Config) (st : SysState) (app_name : String)
    (now : Int) (cr : Credentials) :
    set_rotation_schedule cfg st app_name 0 now cr =
      (st, .error (.validation "Rotation period must be at least 1 day")) ∧
    set_rotation_schedule cfg st app_name 400 now cr =
      (st, .error (.validation "Rotation period cannot exceed 365 days")) ∧
    (set_rotation_schedule cfg st app_name 1 now cr).2 =
      .ok ⟨app_name, cr.key, cr.secret, now, now + 1⟩ ∧
    (set_rotation_schedule cfg st app_name 365 now cr).2 =
      .ok ⟨app_name, cr.key, cr.secret, now, now + 365⟩ := by
  refine ⟨rfl, rfl, ?_, ?_⟩
  · rw [set_rotation_schedule_valid cfg st app_name 1 now cr (by norm_num) (by norm_num)]
    cases hD : cfg.DEV_MODE
    · rw [ApigeeKeyManager.create_app_eq cfg st app_name 1 now cr hD]
    · rw [ApigeeKeyManager.create_app_dev_eq cfg st app_name 1 now cr hD]
  · rw [set_rotation_schedule_valid cfg st app_name 365 now cr (by norm_num) (by norm_num)]
    cases hD : cfg.DEV_MODE
    · rw [ApigeeKeyManager.create_app_eq cfg st app_name 365 now cr hD]
    · rw [ApigeeKeyManager.create_app_dev_eq cfg st app_name 365 now cr hD]

/-- Claim C7: in local (DEV) mode, `get_status` on a cached app returns the
cached `AppCredential` with the state unchanged, and on an absent app lazily
creates it with the configured default rotation period and returns it. -/
theorem C7_dev_status_lazy_init (cfg : Config) (st : SysState) (app_name : String)
    (now : Int) (cr : Credentials) (hDev : cfg.DEV_MODE = true) :
    ApigeeKeyManager.get_app_status cfg st app_name now cr =
      match cacheGet st.cache app_name with
      | some s => (st, .ok s)
      | none =>
          ({ store := st.store
             cache := cacheSet st.cache app_name (lazyAppSecret cfg app_name now cr) },
           .ok (lazyAppSecret cfg app_name now cr)) := by
  cases h : cacheGet st.cache app_name with
  | some s => simp [ApigeeKeyManager.get_app_status, hDev, h]
  | none =>
      simp [ApigeeKeyManager.get_app_status, hDev, h,
        ApigeeKeyManager.create_app_dev_eq cfg st app_name cfg.ROTATION_PERIOD_DAYS now cr hDev,
        lazyAppSecret]

/-- Witness for C7 at a concrete input: on a fresh DEV deployment the status
query lazily creates `"app1"` with the default period. -/
theorem C7_dev_status_lazy_init_witness :
    ApigeeKeyManager.get_app_status cfgDev emptyState "app1" 5 creds1 =
      ({ store := ([] : Store)
         cache := cacheSet [] "app1" (lazyAppSecret cfgDev "app1" 5 creds1) },
       .ok (lazyAppSecret cfgDev "app1" 5 creds1)) :=
  C7_dev_status_lazy_init cfgDev emptyState "app1" 5 creds1 rfl

/-- Claim C10: in local (DEV) mode, `rotate` on a never-created app does not
fail: it returns a fresh credential whose `next_rotation` comes from the
global default period, inserts it into the cache, and leaves the store alone. -/
theorem C10_dev_rotate_never_created (cfg : Config) (st : SysState)
    (app_name : String) (now : Int) (cr : Credentials)
    (hDev : cfg.DEV_MODE = true) (hAbs : cacheGet st.cache app_name = none) :
    ApigeeKeyManager.rotate_secret cfg st app_name now cr =
      ({ store := st.store
         cache := cacheSet st.cache app_name (lazyAppSecret cfg app_name now cr) },
       .ok (lazyAppSecret cfg app_name now cr)) ∧
    cacheGet (cacheSet st.cache app_name (lazyAppSecret cfg app_name now cr)) app_name =
      some (lazyAppSecret cfg app_name now cr) := by
  constructor
  · simp [ApigeeKeyManager.rotate_secret, hDev, lazyAppSecret]
  · exact cacheGet_cacheSet_self st.cache app_name (lazyAppSecret cfg app_name now cr)

/-- Witness for C10 at a concrete input: rotating the never-created `"lazy"`
in DEV mode succeeds and caches the default-period credential. -/
theorem C10_dev_rotate_never_created_witness :
    ApigeeKeyManager.rotate_secret cfgDev emptyState "lazy" 7 creds1 =
      ({ store := ([] : Store)
         cache := cacheSet [] "lazy" (lazyAppSecret cfgDev "lazy" 7 creds1) },
       .ok (lazyAppSecret cfgDev "lazy" 7 creds1)) ∧
    cacheGet (cacheSet [] "lazy" (lazyAppSecret cfgDev "lazy" 7 creds1)) "lazy" =
      some (lazyAppSecret cfgDev "lazy" 7 creds1) :=
  C10_dev_rotate_never_created cfgDev emptyState "lazy" 7 creds1 rfl rfl

/-- Claim C3 (counterexample): in durable mode, `rotate("ghost")` on a fresh
deployment fails — but the catch-all re-raises the 404 from `get_secret` as
`HTTPException(500, …)`, a generic internal failure, not a 404
resource-absent signal. -/
theorem C3_rotate_absent_counterexample :
    (ApigeeKeyManager.rotate_secret cfgProd emptyState "ghost" 0 creds1).2 =
      .error (.http 500 "Secret not found for app: ghost") ∧
    (Err.http 500 "Secret not found for app: ghost").statusCode ≠ 404 :=
  ⟨rfl, by decide⟩

/-- Claim C3 (amended): in durable mode, `rotate` on a never-created app fails
and writes nothing (the state is returned untouched), but the failure is
surfaced as `HTTPException(500, detail)` wrapping the NotFound detail, not as
a 404 resource-absent signal. -/
theorem C3_rotate_absent_amended (cfg : Config) (st : SysState)
    (app_name : String) (now : Int) (cr : Credentials)
    (hDur : cfg.DEV_MODE = false)
    (hAbs : st.store.lookup (secretId app_name) = none) :
    ApigeeKeyManager.rotate_secret cfg st app_name now cr =
      (st, .error (.http 500 ("Secret not found for app: " ++ app_name))) := by
  simp [ApigeeKeyManager.rotate_secret, hDur, SecretManager.get_secret,
    accessLatestVersion, hAbs, Err.message]

/-- Witness for the amended C3 at a concrete input. -/
theorem C3_rotate_absent_amended_witness :
    ApigeeKeyManager.rotate_secret cfgProd emptyState "ghost" 0 creds1 =
      (emptyState, .error (.http 500 ("Secret not found for app: " ++ "ghost"))) :=
  C3_rotate_absent_amended cfgProd emptyState "ghost" 0 creds1 rfl rfl

/-- Claim C8 (counterexample): in DEV mode, `verify` on the never-created
`"ghost"` returns the `{mode, message}` record, which carries no
`exists` field at all — in particular not `exists = false`. -/
theorem C8_verify_counterexample :
    (verify_app_secret cfgDev emptyState "ghost").2 =
      .devMode "development" "Verification not available in dev mode" ∧
    (verify_app_secret cfgDev emptyState "ghost").2.existsField ≠ some false :=
  ⟨rfl, by decide⟩

/-- Claim C8 (amended): `verify` never mutates state in any mode, and in
durable mode a never-created app yields the `{exists: false, error}` record
without raising. -/
theorem C8_verify_amended (cfg : Config) (st : SysState) (app_name : String) :
    (verify_app_secret cfg st app_name).1 = st ∧
    (cfg.DEV_MODE = false → st.store.lookup (secretId app_name) = none →
      (verify_app_secret cfg st app_name).2 =
        .absent ("Secret not found for app: " ++ app_name)) := by
  constructor
  · cases hD : cfg.DEV_MODE
    · cases h : SecretManager.get_secret st.store app_name <;>
        simp [verify_app_secret, hD, h]
    · simp [verify_app_secret, hD]
  · intro hDur hAbs
    simp [verify_app_secret, hDur, SecretManager.get_secret, accessLatestVersion,
      hAbs, Err.message]

/-- Witness for the amended C8 at a concrete input. -/
theorem C8_verify_amended_witness :
    (verify_app_secret cfgProd emptyState "ghost").1 = emptyState ∧
    (verify_app_secret cfgProd emptyState "ghost").2 =
      .absent ("Secret not found for app: " ++ "ghost") :=
  ⟨(C8_verify_amended cfgProd emptyState "ghost").1,
   (C8_verify_amended cfgProd emptyState "ghost").2 rfl rfl⟩

/-- Claim C1 (counterexample): on a fresh durable deployment with default
period 30, `create("demo", 60)` at instant 0 then `rotate("demo")` at instant
100 returns an `AppCredential` with `next_rotation = 130 = 100 + 30`, although
the period stored for `"demo"` (also in the version this very rotation wrote)
is 60 — so `next_rotation ≠ last_rotated + rotation_period_days`. -/
theorem C1_invariant_counterexample :
    demoRotate.2 = .ok ⟨"demo", "key-2", "secret-2", 100, 130⟩ ∧
    (SecretManager.get_secret demoRotate.1.store "demo").map
      (fun d => d.metadata.rotation_period_days) = .ok 60 ∧
    (130 : Int) ≠ 100 + 60 :=
  ⟨rfl, rfl, by decide⟩

/-- Claim C1 (amended): in durable mode with a valid period, the credential
returned by `create` and the one returned by a following `get_status` satisfy
`next_rotation = last_rotated + period`; after `rotate`, the credential a
following `get_status` returns still satisfies the invariant with the stored
period, but the credential returned by `rotate` itself satisfies it with the
global default `Config.ROTATION_PERIOD_DAYS` instead of the stored period. -/
theorem C1_invariant_amended (cfg : Config) (st : SysState) (app_name : String)
    (period now1 now2 now3 now4 : Int) (cr1 cr2 cr3 cr4 : Credentials)
    (hDur : cfg.DEV_MODE = false) (h1 : 1 ≤ period) (h2 : period ≤ 365) :
    (set_rotation_schedule cfg st app_name period now1 cr1).2 =
      .ok ⟨app_name, cr1.key, cr1.secret, now1, now1 + period⟩ ∧
    (ApigeeKeyManager.get_app_status cfg
        (set_rotation_schedule cfg st app_name period now1 cr1).1 app_name now2 cr2).2 =
      .ok ⟨app_name, cr1.key, cr1.secret, now1, now1 + period⟩ ∧
    (ApigeeKeyManager.rotate_secret cfg
        (set_rotation_schedule cfg st app_name period now1 cr1).1 app_name now3 cr3).2 =
      .ok ⟨app_name, cr3.key, cr3.secret, now3, now3 + cfg.ROTATION_PERIOD_DAYS⟩ ∧
    (ApigeeKeyManager.get_app_status cfg
        (ApigeeKeyManager.rotate_secret cfg
          (set_rotation_schedule cfg st app_name period now1 cr1).1 app_name now3 cr3).1
        app_name now4 cr4).2 =
      .ok ⟨app_name, cr3.key, cr3.secret, now3, now3 + period⟩ := by
  have hs1 : set_rotation_schedule cfg st app_name period now1 cr1 =
      ({ store := st.store.set (secretId app_name)
            (((st.store.lookup (secretId app_name)).getD []) ++
              [mkPayload app_name cr1 period now1])
         cache := cacheSet st.cache app_name
            ⟨app_name, cr1.key, cr1.secret, now1, now1 + period⟩ },
       .ok ⟨app_name, cr1.key, cr1.secret, now1, now1 + period⟩) := by
    rw [set_rotation_schedule_valid cfg st app_name period now1 cr1 h1 h2,
      ApigeeKeyManager.create_app_eq cfg st app_name period now1 cr1 hDur]
  have hget1 : SecretManager.get_secret
      (set_rotation_schedule cfg st app_name period now1 cr1).1.store app_name =
      .ok (mkPayload app_name cr1 period now1) := by
    rw [hs1]
    exact SecretManager.get_secret_set _ _ _ _
  have hrot : ApigeeKeyManager.rotate_secret cfg
      (set_rotation_schedule cfg st app_name period now1 cr1).1 app_name now3 cr3 =
      ({ store := (set_rotation_schedule cfg st app_name period now1 cr1).1.store.set
            (secretId app_name)
            ((((set_rotation_schedule cfg st app_name period now1 cr1).1.store.lookup
                (secretId app_name)).getD []) ++
              [mkPayload app_name cr3
                (mkPayload app_name cr1 period now1).metadata.rotation_period_days now3])
         cache := cacheSet (set_rotation_schedule cfg st app_name period now1 cr1).1.cache
            app_name ⟨app_name, cr3.key, cr3.secret, now3, now3 + cfg.ROTATION_PERIOD_DAYS⟩ },
       .ok ⟨app_name, cr3.key, cr3.secret, now3, now3 + cfg.ROTATION_PERIOD_DAYS⟩) :=
    ApigeeKeyManager.rotate_secret_eq cfg _ app_name now3 cr3
      (mkPayload app_name cr1 period now1) hDur hget1
  have hget2 : SecretManager.get_secret
      (ApigeeKeyManager.rotate_secret cfg
        (set_rotation_schedule cfg st app_name period now1 cr1).1 app_name now3 cr3).1.store
      app_name =
      .ok (mkPayload app_name cr3
            (mkPayload app_name cr1 period now1).metadata.rotation_period_days now3) := by
    rw [hrot]
    exact SecretManager.get_secret_set _ _ _ _
  refine ⟨?_, ?_, ?_, ?_⟩
  · rw [hs1]
  · rw [ApigeeKeyManager.get_app_status_eq cfg _ app_name now2 cr2
      (mkPayload app_name cr1 period now1) hDur hget1]
    simp [mkPayload]
  · rw [hrot]
  · rw [ApigeeKeyManager.get_app_status_eq cfg _ app_name now4 cr4
      (mkPayload app_name cr3
        (mkPayload app_name cr1 period now1).metadata.rotation_period_days now3)
      hDur hget2]
    simp [mkPayload]

/-- Witness for the amended C1 at a concrete input: period 60, default 30. -/
theorem C1_invariant_amended_witness :
    (set_rotation_schedule cfgProd emptyState "demo" 60 0 creds1).2 =
      .ok ⟨"demo", creds1.key, creds1.secret, 0, 0 + 60⟩ ∧
    (ApigeeKeyManager.get_app_status cfgProd
        (set_rotation_schedule cfgProd emptyState "demo" 60 0 creds1).1 "demo" 10 creds1).2 =
      .ok ⟨"demo", creds1.key, creds1.secret, 0, 0 + 60⟩ ∧
    (ApigeeKeyManager.rotate_secret cfgProd
        (set_rotation_schedule cfgProd emptyState "demo" 60 0 creds1).1 "demo" 100 creds2).2 =
      .ok ⟨"demo", creds2.key, creds2.secret, 100, 100 + cfgProd.ROTATION_PERIOD_DAYS⟩ ∧
    (ApigeeKeyManager.get_app_status cfgProd
        (ApigeeKeyManager.rotate_secret cfgProd
          (set_rotation_schedule cfgProd emptyState "demo" 60 0 creds1).1 "demo" 100 creds2).1
        "demo" 200 creds1).2 =
      .ok ⟨"demo", creds2.key, creds2.secret, 100, 100 + 60⟩ :=
  C1_invariant_amended cfgProd emptyState "demo" 60 0 10 100 200 creds1 creds1 creds2 creds1
    rfl (by decide) (by decide)

/-- Claim C2 (counterexample): after `create("demo", 60)` at instant 0 (with
global default 30), `rotate("demo")` at instant 100 writes a version whose
metadata still carries `rotation_period_days = 60`, but the `AppCredential`
it returns has `next_rotation - last_rotated = 30`, the global default —
the returned credential does not carry the stored period. -/
theorem C2_period_preserved_counterexample :
    (SecretManager.get_secret demoRotate.1.store "demo").map
      (fun d => d.metadata.rotation_period_days) = .ok 60 ∧
    demoRotate.2.map (fun c => c.next_rotation - c.last_rotated) = .ok 30 ∧
    (30 : Int) ≠ 60 :=
  ⟨rfl, rfl, by decide⟩

/-- Claim C2 (amended): in durable mode, `rotate` on an existing app writes a
new version whose metadata keeps the previously stored
`rotation_period_days` (it never resets the stored period), but the
`AppCredential` it returns is built from the global default
`Config.ROTATION_PERIOD_DAYS`, not from the stored period. -/
theorem C2_period_preserved_amended (cfg : Config) (st : SysState)
    (app_name : String) (now : Int) (cr : Credentials) (existing : SecretData)
    (hDur : cfg.DEV_MODE = false)
    (hex : SecretManager.get_secret st.store app_name = .ok existing) :
    (ApigeeKeyManager.rotate_secret cfg st app_name now cr).2 =
      .ok ⟨app_name, cr.key, cr.secret, now, now + cfg.ROTATION_PERIOD_DAYS⟩ ∧
    SecretManager.get_secret
        (ApigeeKeyManager.rotate_secret cfg st app_name now cr).1.store app_name =
      .ok (mkPayload app_name cr existing.metadata.rotation_period_days now) := by
  have hrot := ApigeeKeyManager.rotate_secret_eq cfg st app_name now cr existing hDur hex
  constructor
  · rw [hrot]
  · rw [hrot]
    exact SecretManager.get_secret_set _ _ _ _

/-- Witness for the amended C2 at a concrete input. -/
theorem C2_period_preserved_amended_witness :
    (ApigeeKeyManager.rotate_secret cfgProd demoSt1 "demo" 100 creds2).2 =
      .ok ⟨"demo", creds2.key, creds2.secret, 100, 100 + cfgProd.ROTATION_PERIOD_DAYS⟩ ∧
    SecretManager.get_secret
        (ApigeeKeyManager.rotate_secret cfgProd demoSt1 "demo" 100 creds2).1.store "demo" =
      .ok (mkPayload "demo" creds2
            (mkPayload "demo" creds1 60 0).metadata.rotation_period_days 100) :=
  C2_period_preserved_amended cfgProd demoSt1 "demo" 100 creds2
    (mkPayload "demo" creds1 60 0) rfl rfl

/-- Claim C4: the code restamps `created_at` on every write.  On the live
path, `create("demo", …)` at instant 0 then `rotate("demo")` at instant 100
leaves the two versions with `created_at = 0` and `created_at = 100` — the
version written by the rotation does not carry the first version's
`created_at`.  `SecretManagerClient.update_api_key` (which builds a payload
preserving `created_at` and then discards it) restamps it just the same. -/
theorem C4_created_at_restamped :
    (SecretManager.get_secret demoSt1.store "demo").map
      (fun d => d.metadata.created_at) = .ok 0 ∧
    (SecretManager.get_secret demoRotate.1.store "demo").map
      (fun d => d.metadata.created_at) = .ok 100 ∧
    (demoRotate.1.store.lookup (secretId "demo")).map
      (fun vs => vs.map (fun d => d.metadata.created_at)) = some [0, 100] ∧
    (SecretManagerClient.update_api_key uStore "u" creds2 100).map
      (fun r => (r.1.lookup (secretId "u")).map
        (fun vs => vs.map (fun d => d.metadata.created_at))) = .ok (some [0, 100]) ∧
    (100 : Int) ≠ 0 :=
  ⟨rfl, rfl, rfl, rfl, by decide⟩

/-- Claim C5: container provisioning is idempotent.  In durable mode, two
`create` calls for the same never-created name both succeed (the second run's
`AlreadyExists` is swallowed), leave exactly one logical container for the
name, and each append exactly one version (1 after the first call, 2 after
the second). -/
theorem C5_idempotent_provisioning (cfg : Config) (st : SysState)
    (app_name : String) (p1 p2 now1 now2 : Int) (cr1 cr2 : Credentials)
    (hDur : cfg.DEV_MODE = false)
    (hAbs : st.store.lookup (secretId app_name) = none)
    (h11 : 1 ≤ p1) (h12 : p1 ≤ 365) (h21 : 1 ≤ p2) (h22 : p2 ≤ 365) :
    (set_rotation_schedule cfg st app_name p1 now1 cr1).2 =
      .ok ⟨app_name, cr1.key, cr1.secret, now1, now1 + p1⟩ ∧
    (set_rotation_schedule cfg st app_name p1 now1 cr1).1.store.countKey
      (secretId app_name) = 1 ∧
    ((set_rotation_schedule cfg st app_name p1 now1 cr1).1.store.lookup
      (secretId app_name)).map List.length = some 1 ∧
    (set_rotation_schedule cfg (set_rotation_schedule cfg st app_name p1 now1 cr1).1
      app_name p2 now2 cr2).2 =
      .ok ⟨app_name, cr2.key, cr2.secret, now2, now2 + p2⟩ ∧
    (set_rotation_schedule cfg (set_rotation_schedule cfg st app_name p1 now1 cr1).1
      app_name p2 now2 cr2).1.store.countKey (secretId app_name) = 1 ∧
    ((set_rotation_schedule cfg (set_rotation_schedule cfg st app_name p1 now1 cr1).1
      app_name p2 now2 cr2).1.store.lookup (secretId app_name)).map List.length =
      some 2 := by
  have hs1 : set_rotation_schedule cfg st app_name p1 now1 cr1 =
      ({ store := st.store.set (secretId app_name)
            (((st.store.lookup (secretId app_name)).getD []) ++
              [mkPayload app_name cr1 p1 now1])
         cache := cacheSet st.cache app_name
            ⟨app_name, cr1.key, cr1.secret, now1, now1 + p1⟩ },
       .ok ⟨app_name, cr1.key, cr1.secret, now1, now1 + p1⟩) := by
    rw [set_rotation_schedule_valid cfg st app_name p1 now1 cr1 h11 h12,
      ApigeeKeyManager.create_app_eq cfg st app_name p1 now1 cr1 hDur]
  rw [hs1]
  rw [set_rotation_schedule_valid cfg _ app_name p2 now2 cr2 h21 h22,
    ApigeeKeyManager.create_app_eq cfg _ app_name p2 now2 cr2 hDur]
  refine ⟨rfl, ?_, ?_, rfl, ?_, ?_⟩
  · simpa [hAbs] using
      Store.countKey_set_of_lookup_none st.store (secretId app_name)
        [mkPayload app_name cr1 p1 now1] hAbs
  · simp [hAbs, Store.lookup_set_self]
  · have h1' : (st.store.set (secretId app_name)
        (((st.store.lookup (secretId app_name)).getD []) ++
          [mkPayload app_name cr1 p1 now1])).lookup (secretId app_name) =
        some (((st.store.lookup (secretId app_name)).getD []) ++
          [mkPayload app_name cr1 p1 now1]) :=
      Store.lookup_set_self _ _ _
    rw [Store.countKey_set_of_lookup_some _ _ _ _ h1']
    simpa [hAbs] using
      Store.countKey_set_of_lookup_none st.store (secretId app_name)
        [mkPayload app_name cr1 p1 now1] hAbs
  · simp [hAbs, Store.lookup_set_self]

/-- Witness for C5 at a concrete input: two creations of `"a"` on a fresh
durable deployment. -/
theorem C5_idempotent_provisioning_witness :
    (set_rotation_schedule cfgProd emptyState "a" 1 0 creds1).2 =
      .ok ⟨"a", creds1.key, creds1.secret, 0, 0 + 1⟩ ∧
    (set_rotation_schedule cfgProd emptyState "a" 1 0 creds1).1.store.countKey
      (secretId "a") = 1 ∧
    ((set_rotation_schedule cfgProd emptyState "a" 1 0 creds1).1.store.lookup
      (secretId "a")).map List.length = some 1 ∧
    (set_rotation_schedule cfgProd (set_rotation_schedule cfgProd emptyState "a" 1 0 creds1).1
      "a" 365 10 creds2).2 =
      .ok ⟨"a", creds2.key, creds2.secret, 10, 10 + 365⟩ ∧
    (set_rotation_schedule cfgProd (set_rotation_schedule cfgProd emptyState "a" 1 0 creds1).1
      "a" 365 10 creds2).1.store.countKey (secretId "a") = 1 ∧
    ((set_rotation_schedule cfgProd (set_rotation_schedule cfgProd emptyState "a" 1 0 creds1).1
      "a" 365 10 creds2).1.store.lookup (secretId "a")).map List.length = some 2 :=
  C5_idempotent_provisioning cfgProd emptyState "a" 1 365 0 10 creds1 creds2
    rfl rfl (by decide) (by decide) (by decide) (by decide)
